import Mathlib

/-!
Verification of the Focus Session & Distraction Detection Engine of the
FocusFlow repository (src/components/FocusMode.tsx), shallowly embedded:
timestamps are integers in milliseconds, React state is an explicit record,
event handlers are functions on that record.
-/

namespace FocusFlow

/-- Alert severity, `'warning' | 'critical'` in the source. -/
inductive Severity
  | warning
  | critical
deriving DecidableEq, Repr

/-- StreakState `{ count, lastEventTimestamp }`: the pair of refs
`distractionStreakRef` and `lastDistractionTime` in FocusMode.tsx. -/
structure StreakState where
  count : Nat
  lastEventTimestamp : Int
deriving DecidableEq, Repr

/-- Both refs start at 0 (`useRef<number>(0)`). -/
def streakInit : StreakState := ⟨0, 0⟩

/-- The 2-minute cluster window used at FocusMode.tsx line 150. -/
def clusterWindowMs : Int := 120000

/-- One step of the streak escalator, FocusMode.tsx lines 140-154:
`timeSinceLast = now - lastDistractionTime`; if `timeSinceLast < 120000`
the streak counter is incremented, otherwise reset to 1; the last-event
timestamp becomes `now` in either case. -/
def streakStep (s : StreakState) (t : Int) : StreakState :=
  if t - s.lastEventTimestamp < clusterWindowMs then ⟨s.count + 1, t⟩ else ⟨1, t⟩

/-- Folding the escalator step over a sequence of event timestamps. -/
def processEvents (s : StreakState) (ts : List Int) : StreakState :=
  ts.foldl streakStep s

/-- Severity computed from the streak counter, FocusMode.tsx line 156:
`critical` when the counter is at least 3, else `warning`. -/
def severityOf (count : Nat) : Severity :=
  if 3 ≤ count then .critical else .warning

/-- Two consecutive events are clustered when the gap from the earlier
event `a` to the later event `b` is under the 120000 ms window. -/
def clusteredPair (a b : Int) : Bool := decide (b - a < clusterWindowMs)

/-- A sequence is clustered when every event is within the window of the
previous one. -/
def clustered : List Int → Bool
  | [] => true
  | [_] => true
  | a :: b :: rest => clusteredPair a b && clustered (b :: rest)

/-- Lengths of all clustered suffixes of a sequence. -/
def clusteredSuffixLengths (ts : List Int) : List Nat :=
  (ts.tails.filter clustered).map List.length

/-- The length of the longest suffix of the sequence in which each event is
within 120000 ms of the previous one. -/
def longestClusteredSuffix (ts : List Int) : Nat :=
  (clusteredSuffixLengths ts).foldr max 0

/-- Whether every event of `ts` continues a cluster whose previous
timestamp is `last`. -/
def chainFrom (last : Int) (ts : List Int) : Bool := clustered (last :: ts)

lemma foldr_max_le {L : List Nat} {n : Nat} (h : ∀ x ∈ L, x ≤ n) :
    L.foldr max 0 ≤ n := by
  induction L with
  | nil => exact Nat.zero_le n
  | cons a l ih =>
    simp only [List.foldr_cons]
    exact max_le (h a (List.mem_cons_self a l)) (ih fun x hx => h x (List.mem_cons_of_mem a hx))

lemma le_foldr_max {L : List Nat} {x : Nat} (h : x ∈ L) : x ≤ L.foldr max 0 := by
  induction L with
  | nil => cases h
  | cons a l ih =>
    simp only [List.foldr_cons]
    rcases List.mem_cons.mp h with rfl | hx
    · exact le_max_left _ _
    · exact le_trans (ih hx) (le_max_right _ _)

lemma longestClusteredSuffix_le_length (ts : List Int) :
    longestClusteredSuffix ts ≤ ts.length := by
  apply foldr_max_le
  intro x hx
  simp only [clusteredSuffixLengths, List.mem_map, List.mem_filter, List.mem_tails] at hx
  obtain ⟨l, ⟨hsuf, _⟩, rfl⟩ := hx
  exact hsuf.length_le

lemma clustered_tail {a : Int} {l : List Int} (h : clustered (a :: l) = true) :
    clustered l = true := by
  cases l with
  | nil => rfl
  | cons b rest =>
    simp only [clustered, Bool.and_eq_true] at h
    exact h.2

lemma longestClusteredSuffix_of_clustered {ts : List Int} (h : clustered ts = true) :
    longestClusteredSuffix ts = ts.length := by
  refine le_antisymm (longestClusteredSuffix_le_length ts) ?_
  apply le_foldr_max
  simp only [clusteredSuffixLengths, List.mem_map, List.mem_filter, List.mem_tails]
  exact ⟨ts, ⟨List.suffix_refl ts, h⟩, rfl⟩

lemma tails_cons' (a : Int) (l : List Int) :
    (a :: l).tails = (a :: l) :: l.tails := by
  simp

lemma longestClusteredSuffix_cons (a : Int) (l : List Int) :
    longestClusteredSuffix (a :: l) =
      if clustered (a :: l) = true then l.length + 1 else longestClusteredSuffix l := by
  unfold longestClusteredSuffix clusteredSuffixLengths
  rw [tails_cons']
  by_cases h : clustered (a :: l) = true
  · simp only [h, if_true, List.filter_cons, List.map_cons, List.foldr_cons,
      List.length_cons]
    have hle : (((l.tails.filter clustered).map List.length).foldr max 0) ≤ l.length + 1 := by
      apply foldr_max_le
      intro x hx
      simp only [List.mem_map, List.mem_filter, List.mem_tails] at hx
      obtain ⟨s, ⟨hsuf, _⟩, rfl⟩ := hx
      exact le_trans hsuf.length_le (Nat.le_succ _)
    exact max_eq_left hle
  · simp only [h, if_false, List.filter_cons]
    simp only [Bool.not_eq_true] at h
    simp [h]

lemma streakStep_last (s : StreakState) (t : Int) :
    (streakStep s t).lastEventTimestamp = t := by
  unfold streakStep
  split <;> rfl

lemma processEvents_count (ts : List Int) : ∀ s : StreakState,
    (processEvents s ts).count =
      if chainFrom s.lastEventTimestamp ts = true then s.count + ts.length
      else longestClusteredSuffix ts := by
  induction ts with
  | nil =>
    intro s
    simp [processEvents, chainFrom, clustered]
  | cons a rest ih =>
    intro s
    have hfold : processEvents s (a :: rest) = processEvents (streakStep s a) rest := rfl
    rw [hfold, ih (streakStep s a), streakStep_last]
    have hchain : chainFrom s.lastEventTimestamp (a :: rest) =
        (clusteredPair s.lastEventTimestamp a && chainFrom a rest) := by
      cases rest with
      | nil => simp [chainFrom, clustered]
      | cons b r => simp [chainFrom, clustered]
    rw [hchain, longestClusteredSuffix_cons]
    have hclus : clustered (a :: rest) = chainFrom a rest := rfl
    rw [hclus]
    by_cases h1 : a - s.lastEventTimestamp < clusterWindowMs
    · by_cases h2 : chainFrom a rest = true
      · simp [streakStep, h1, h2, clusteredPair, List.length_cons]
        omega
      · simp only [Bool.not_eq_true] at h2
        simp [streakStep, h1, h2, clusteredPair]
    · by_cases h2 : chainFrom a rest = true
      · simp [streakStep, h1, h2, clusteredPair, List.length_cons]
        omega
      · simp only [Bool.not_eq_true] at h2
        simp [streakStep, h1, h2, clusteredPair]

lemma severityOf_critical_iff (n : Nat) : severityOf n = Severity.critical ↔ 3 ≤ n := by
  unfold severityOf
  split <;> simp_all

lemma severityOf_warning_iff (n : Nat) : severityOf n = Severity.warning ↔ n < 3 := by
  unfold severityOf
  split <;> simp_all

/-- C1: for every finite sequence of distraction-event timestamps run through
the StreakEscalator step (gap from the previous event under 120000 ms
increments the counter, otherwise it resets to 1), the resulting
`StreakState.count` equals the length of the longest suffix of the sequence
in which each event is within 120000 ms of the previous one, and the severity
computed for the last event is `critical` iff that count is at least 3, else
`warning`. -/
theorem streak_count_eq_longest_clustered_suffix (ts : List Int) :
    (processEvents streakInit ts).count = longestClusteredSuffix ts ∧
    (severityOf (processEvents streakInit ts).count = Severity.critical ↔
      3 ≤ (processEvents streakInit ts).count) ∧
    (severityOf (processEvents streakInit ts).count = Severity.warning ↔
      (processEvents streakInit ts).count < 3) := by
  refine ⟨?_, severityOf_critical_iff _, severityOf_warning_iff _⟩
  rw [processEvents_count ts streakInit]
  by_cases h : chainFrom streakInit.lastEventTimestamp ts = true
  · rw [if_pos h]
    have hc : clustered ts = true := clustered_tail h
    rw [longestClusteredSuffix_of_clustered hc]
    simp [streakInit]
  · rw [if_neg h]

/-! ## The engine state and its operations (FocusMode.tsx) -/

/-- Session type, `'Work' | 'Break'` in the source. -/
inductive SessionType
  | Work
  | Break
deriving DecidableEq, Repr

/-- One logged distraction, `{ time, type }` in the source (`time` is kept
as an integer timestamp in milliseconds). -/
structure DistractionEvent where
  time : Int
  type : String
deriving DecidableEq, Repr

/-- The in-app alert, `{ type, message, severity }` in the source. -/
structure Alert where
  type : String
  message : String
  severity : Severity
deriving DecidableEq, Repr

/-- The React state and refs of the `FocusMode` component that the engine
claims are about.  `alertDismissAt` models the pending `setTimeout` that
auto-dismisses the alert (`alertTimeoutRef`): `some t` means a dismissal is
scheduled for time `t`.  `hiddenTime` models the `hiddenTime` closure
variable of the visibility-watchdog effect (0 = not hidden). -/
structure EngineState where
  timeLeft : Nat
  isActive : Bool
  sessionType : SessionType
  currentSessionId : Option String
  sessionCompleted : Bool
  dndEnabled : Bool
  soundMuted : Bool
  blockedCount : Nat
  distractionAlert : Option Alert
  distractionLog : List DistractionEvent
  streakWarning : Bool
  showRefocusPrompt : Bool
  sessionDistractions : List DistractionEvent
  showSessionSummary : Bool
  lastDistractionTime : Int
  distractionStreak : Nat
  alertDismissAt : Option Int
  hiddenTime : Int
deriving DecidableEq, Repr

/-- The initial component state (`useState` / `useRef` initializers). -/
def initialState : EngineState where
  timeLeft := 25 * 60
  isActive := false
  sessionType := .Work
  currentSessionId := none
  sessionCompleted := false
  dndEnabled := false
  soundMuted := false
  blockedCount := 0
  distractionAlert := none
  distractionLog := []
  streakWarning := false
  showRefocusPrompt := false
  sessionDistractions := []
  showSessionSummary := false
  lastDistractionTime := 0
  distractionStreak := 0
  alertDismissAt := none
  hiddenTime := 0

/-- The kind-specific message lookup table, FocusMode.tsx lines 157-162;
unknown kinds fall back to the generic message. -/
def kindMessage (ty : String) : String :=
  if ty = "tab-switch" then "You switched away from the app. Stay focused!"
  else if ty = "keyboard-shortcut" then "Blocked an attempt to open a new tab/window."
  else if ty = "idle-detected" then "You seem idle. Need to refocus?"
  else if ty = "rapid-switching" then "Rapid context switching detected - take a breath."
  else "Distraction detected!"

/-- The streak-alert message built at FocusMode.tsx line 167. -/
def streakAlertMessage (streak : Nat) : String :=
  "Distraction streak! " ++ toString streak ++
    " distractions in quick succession. Take a deep breath and refocus."

/-- `triggerDistractionAlert`, FocusMode.tsx lines 137-193: guarded on an
active Work session; logs the event to both logs, runs the streak step,
computes severity, replaces the current alert, and (re)schedules its
auto-dismissal 6000 ms later for `critical`, 4000 ms for `warning`. -/
def triggerDistractionAlert (now : Int) (ty : String) (st : EngineState) : EngineState :=
  if st.isActive = true ∧ st.sessionType = SessionType.Work then
    let timeSinceLast := now - st.lastDistractionTime
    let entry : DistractionEvent := ⟨now, ty⟩
    let streak := if timeSinceLast < clusterWindowMs then st.distractionStreak + 1 else 1
    let severity := if 3 ≤ streak then Severity.critical else Severity.warning
    let message := if 3 ≤ streak then streakAlertMessage streak else kindMessage ty
    { st with
        lastDistractionTime := now
        distractionLog := st.distractionLog ++ [entry]
        sessionDistractions := st.sessionDistractions ++ [entry]
        distractionStreak := streak
        distractionAlert := some ⟨ty, message, severity⟩
        streakWarning := if 3 ≤ streak then true else st.streakWarning
        alertDismissAt := some (now + (if severity = Severity.critical then 6000 else 4000)) }
  else st

/-- The auto-dismiss timeout callback, FocusMode.tsx lines 180-183. -/
def autoDismissAlert (st : EngineState) : EngineState :=
  { st with distractionAlert := none, streakWarning := false, alertDismissAt := none }

/-- A keyboard event as far as `handleKeydown` inspects it. -/
structure KeyEvent where
  ctrlKey : Bool
  metaKey : Bool
  key : String
deriving DecidableEq, Repr

/-- `handleKeydown`, FocusMode.tsx lines 105-113.  The returned Bool is
whether `preventDefault` was called. -/
def handleKeydown (now : Int) (e : KeyEvent) (st : EngineState) : EngineState × Bool :=
  if st.isActive = true ∧ st.sessionType = SessionType.Work then
    if (e.ctrlKey || e.metaKey) && (e.key = "t" || e.key = "n") then
      (triggerDistractionAlert now "keyboard-shortcut"
        { st with blockedCount := st.blockedCount + 1 }, true)
    else (st, false)
  else (st, false)

/-- `handleVisibilityChange`, FocusMode.tsx lines 98-102: counts a blocked
distraction attempt whenever the document becomes hidden during an active
Work session. -/
def handleVisibilityChangeBlocked (hidden : Bool) (st : EngineState) : EngineState :=
  if hidden = true ∧ st.isActive = true ∧ st.sessionType = SessionType.Work then
    { st with blockedCount := st.blockedCount + 1 }
  else st

/-- `handleReturn` of the visibility watchdog, FocusMode.tsx lines 200-212:
on becoming visible after a recorded hide, computes the away duration in
seconds; if it exceeds 5 seconds, raises the refocus prompt and triggers a
`tab-switch` distraction; the recorded hide time is cleared either way.
On becoming hidden, records the hide time. -/
def handleVisibilityReturn (now : Int) (hidden : Bool) (st : EngineState) : EngineState :=
  if hidden = false ∧ 0 < st.hiddenTime then
    let awayDuration : ℚ := ((now - st.hiddenTime : Int) : ℚ) / 1000
    let st' :=
      if 5 < awayDuration then
        triggerDistractionAlert now "tab-switch" { st with showRefocusPrompt := true }
      else st
    { st' with hiddenTime := 0 }
  else if hidden = true then { st with hiddenTime := now }
  else st

/-- Both `visibilitychange` listeners, in their registration order
(FocusMode.tsx lines 115 and 214). -/
def onVisibilityChange (now : Int) (hidden : Bool) (st : EngineState) : EngineState :=
  handleVisibilityReturn now hidden (handleVisibilityChangeBlocked hidden st)

/-- `handleSessionComplete`, FocusMode.tsx lines 279-303 (synchronous state
changes; `remoteOk` is whether the remote `endSession` call succeeds). -/
def handleSessionComplete (remoteOk : Bool) (st : EngineState) : EngineState :=
  let st' := { st with
      isActive := false
      sessionCompleted := true
      dndEnabled := false
      soundMuted := false
      showSessionSummary := true }
  if st'.currentSessionId.isSome ∧ remoteOk = true then
    { st' with currentSessionId := none }
  else st'

/-- One tick of the countdown interval, FocusMode.tsx lines 260-270: while
active with time left, a tick decrements; at 1 second left the session
completes and the clock shows 0. -/
def tick (remoteOk : Bool) (st : EngineState) : EngineState :=
  if st.isActive = true ∧ 0 < st.timeLeft then
    if st.timeLeft ≤ 1 then { handleSessionComplete remoteOk st with timeLeft := 0 }
    else { st with timeLeft := st.timeLeft - 1 }
  else st

/-- The outcome of the remote `startSession` call. -/
inductive StartResult
  | ok (sessionId : String)
  | err (message : String)
deriving DecidableEq, Repr

/-- Planned duration in minutes, FocusMode.tsx line 307. -/
def sessionDuration : SessionType → Nat
  | .Work => 25
  | .Break => 5

/-- Boolean substring test, modelling JavaScript `String.includes`. -/
def strContains (s pat : String) : Bool :=
  (List.range (s.toList.length + 1)).any
    (fun i => (s.toList.drop i).take pat.toList.length == pat.toList)

/-- `handleStart`, FocusMode.tsx lines 305-320.  On a successful remote
start, adopt the session id, go active, reset the clock and the blocked
counter.  On failure, the error is logged; only when its message contains
"already have an active" does the timer go active anyway. -/
def handleStart (res : StartResult) (st : EngineState) : EngineState :=
  match res with
  | .ok sid =>
      { st with
          currentSessionId := some sid
          isActive := true
          timeLeft := sessionDuration st.sessionType * 60
          sessionCompleted := false
          blockedCount := 0 }
  | .err msg =>
      if strContains msg "already have an active" = true then
        { st with isActive := true }
      else st

/-- `handlePause`, FocusMode.tsx lines 322-324. -/
def handlePause (st : EngineState) : EngineState :=
  { st with isActive := false }

/-- `handleStop`, FocusMode.tsx lines 326-340. -/
def handleStop (remoteOk : Bool) (st : EngineState) : EngineState :=
  let st' := { st with
      isActive := false
      timeLeft := if st.sessionType = SessionType.Work then 25 * 60 else 5 * 60
      dndEnabled := false
      soundMuted := false }
  if st'.currentSessionId.isSome ∧ remoteOk = true then
    { st' with currentSessionId := none }
  else st'

/-- `handleReset`, FocusMode.tsx lines 342-358. -/
def handleReset (st : EngineState) : EngineState :=
  { st with
      isActive := false
      timeLeft := if st.sessionType = SessionType.Work then 25 * 60 else 5 * 60
      currentSessionId := none
      sessionCompleted := false
      dndEnabled := false
      soundMuted := false
      blockedCount := 0
      distractionAlert := none
      distractionLog := []
      streakWarning := false
      showRefocusPrompt := false
      sessionDistractions := []
      showSessionSummary := false
      distractionStreak := 0
      lastDistractionTime := 0 }

/-- The "Got it" button of the summary overlay, FocusMode.tsx line 487:
hides the summary and clears the per-session event log. -/
def dismissSummary (st : EngineState) : EngineState :=
  { st with showSessionSummary := false, sessionDistractions := [] }

/-- Render condition of the summary overlay, FocusMode.tsx line 439. -/
def summaryVisible (st : EngineState) : Bool :=
  st.showSessionSummary && !st.sessionDistractions.isEmpty

/-! ## The session summary (FocusMode.tsx lines 439-476) -/

/-- Per-kind counts built by the `reduce` at FocusMode.tsx lines 465-469,
keyed in first-appearance order. -/
def bumpKind (acc : List (String × Nat)) (ty : String) : List (String × Nat) :=
  match acc with
  | [] => [(ty, 1)]
  | (k, n) :: rest => if k = ty then (k, n + 1) :: rest else (k, n) :: bumpKind rest ty

/-- Breakdown of the session log by distraction kind. -/
def breakdownOf (log : List DistractionEvent) : List (String × Nat) :=
  log.foldl (fun acc d => bumpKind acc d.type) []

/-- The focus score of the summary, FocusMode.tsx line 457:
`Math.max(0, Math.round(100 - length * 5))` (the rounded value is already an
integer). -/
def focusScorePercent (n : Nat) : Int :=
  max 0 (100 - 5 * (n : Int))

/-- `{ totalDistractions, blockedCount, focusScorePercent, breakdownByKind }`
as displayed by the summary overlay. -/
structure SessionSummary where
  totalDistractions : Nat
  blockedShortcutCount : Nat
  focusScore : Int
  breakdownByKind : List (String × Nat)
deriving DecidableEq, Repr

/-- The summary derived from the blocked counter and the session log. -/
def summaryOf (blocked : Nat) (log : List DistractionEvent) : SessionSummary :=
  ⟨log.length, blocked, focusScorePercent log.length, breakdownOf log⟩

/-! ## The idle watchdog (FocusMode.tsx lines 219-239) as a discrete-event
simulation.  `armedAt = some a` means the 180000 ms `setTimeout` was last
(re)armed at time `a`; every activity (mouse move / key down) clears and
re-arms it; when it expires it fires once and is not re-armed until the
next activity; `horizon` is the end of the observation window. -/

/-- The idle delay, FocusMode.tsx line 227. -/
def idleDelayMs : Int := 180000

/-- Fire times of the idle timer given the sorted activity times. -/
def idleSim (armedAt : Option Int) (acts : List Int) (horizon : Int) : List Int :=
  match acts with
  | [] =>
    match armedAt with
    | some a => if a + idleDelayMs ≤ horizon then [a + idleDelayMs] else []
    | none => []
  | b :: rest =>
    match armedAt with
    | some a =>
        if a + idleDelayMs < b then (a + idleDelayMs) :: idleSim (some b) rest horizon
        else idleSim (some b) rest horizon
    | none => idleSim (some b) rest horizon

/-- Fire times of the idle watchdog: the timer is armed at mount
(`resetIdle()` at FocusMode.tsx line 232) and the simulation runs over the
activity times. -/
def idleFires (mount : Int) (acts : List Int) (horizon : Int) : List Int :=
  idleSim (some mount) acts horizon

/-! ## Claims about the start operation (C2) -/

/-- C2 counterexample: a remote start failure whose message does not contain
"already have an active" (here a network failure) leaves the timer stopped:
`isActive` stays `false` and no remote session id is adopted, contradicting
the claim that the local timer still starts for every other failure. -/
theorem handleStart_other_failure_counterexample :
    strContains "Network unreachable" "already have an active" = false ∧
    (handleStart (.err "Network unreachable") initialState).isActive = false ∧
    (handleStart (.err "Network unreachable") initialState) = initialState := by
  refine ⟨by decide, ?_, ?_⟩ <;> decide

/-- C2 (amended): when the remote start fails with a message containing
"already have an active", the timer goes active with no other state change
and no user-visible error state; for every other failure the failure is only
logged and the state is unchanged — the local timer does **not** start.  A
successful start adopts the returned session id and goes active. -/
theorem handleStart_failure_behavior (st : EngineState) (msg sid : String) :
    (strContains msg "already have an active" = true →
      handleStart (.err msg) st = { st with isActive := true }) ∧
    (strContains msg "already have an active" = false →
      handleStart (.err msg) st = st) ∧
    (handleStart (.ok sid) st).isActive = true ∧
    (handleStart (.ok sid) st).currentSessionId = some sid := by
  refine ⟨fun h => ?_, fun h => ?_, rfl, rfl⟩ <;> simp [handleStart, h]

/-- Witness for C2's amended theorem at a concrete failing message. -/
theorem handleStart_failure_behavior_witness :
    strContains "You already have an active session" "already have an active" = true ∧
    handleStart (.err "You already have an active session") initialState =
      { initialState with isActive := true } :=
  ⟨by decide,
    (handleStart_failure_behavior initialState "You already have an active session" "s").1
      (by decide)⟩

/-! ## Claims about the session summary lifecycle (C3) -/

/-- C3 counterexample: an explicit stop of a running Work session that has
logged one distraction does not present the session summary
(`showSessionSummary` stays `false`) and does not clear the event log,
contradicting the claim that the summary is presented on either reaching
Completed or an explicit stop. -/
theorem handleStop_no_summary_counterexample :
    (handleStop true (triggerDistractionAlert 1000 "tab-switch"
        { initialState with isActive := true })).showSessionSummary = false ∧
    (handleStop true (triggerDistractionAlert 1000 "tab-switch"
        { initialState with isActive := true })).sessionDistractions =
      [⟨1000, "tab-switch"⟩] := by
  refine ⟨?_, ?_⟩ <;> decide

/-- C3 (amended): the summary flag is raised by session completion only;
an explicit stop leaves the summary flag and the event log untouched; the
summary overlay is rendered iff the flag is set and the session logged at
least one distraction; the log is cleared when the user dismisses the
summary, not on presentation. -/
theorem session_summary_behavior (st : EngineState) (remoteOk : Bool) :
    (handleSessionComplete remoteOk st).showSessionSummary = true ∧
    (handleStop remoteOk st).showSessionSummary = st.showSessionSummary ∧
    (handleStop remoteOk st).sessionDistractions = st.sessionDistractions ∧
    (dismissSummary st).showSessionSummary = false ∧
    (dismissSummary st).sessionDistractions = [] ∧
    (summaryVisible st = true ↔
      st.showSessionSummary = true ∧ st.sessionDistractions ≠ []) := by
  refine ⟨?_, ?_, ?_, rfl, rfl, ?_⟩
  · unfold handleSessionComplete
    dsimp only
    split <;> rfl
  · unfold handleStop
    dsimp only
    split <;> rfl
  · unfold handleStop
    dsimp only
    split <;> rfl
  · simp [summaryVisible, List.isEmpty_iff]

/-! ## Claims about streak reset on session start (C6) -/

/-- C6 counterexample: a Work session accumulates a streak of 2 (events at
t = 1000000 and t = 1010000), is stopped, and a new session is started; the
first distraction of the new session at t = 1060000 (50000 ms after the
previous session's last event) yields a streak count of 3, not 1 — the start
operation carries the previous session's StreakState over. -/
theorem streak_carryover_counterexample :
    (triggerDistractionAlert 1060000 "tab-switch"
      (handleStart (.ok "s2")
        (handleStop true
          (triggerDistractionAlert 1010000 "tab-switch"
            (triggerDistractionAlert 1000000 "tab-switch"
              { initialState with isActive := true }))))).distractionStreak = 3 ∧
    ¬(triggerDistractionAlert 1060000 "tab-switch"
      (handleStart (.ok "s2")
        (handleStop true
          (triggerDistractionAlert 1010000 "tab-switch"
            (triggerDistractionAlert 1000000 "tab-switch"
              { initialState with isActive := true }))))).distractionStreak = 1 := by
  refine ⟨?_, ?_⟩ <;> decide

/-- C6 (amended): the start operation leaves `StreakState` (the streak
counter and the last-event timestamp) untouched; only an explicit reset
clears them, and after a reset followed by a successful start the first
distraction of the new session yields a count of 1. -/
theorem streak_reset_behavior (st : EngineState) (res : StartResult) (t : Int)
    (ty : String) (hty : st.sessionType = SessionType.Work) :
    (handleStart res st).distractionStreak = st.distractionStreak ∧
    (handleStart res st).lastDistractionTime = st.lastDistractionTime ∧
    (handleReset st).distractionStreak = 0 ∧
    (handleReset st).lastDistractionTime = 0 ∧
    (triggerDistractionAlert t ty
      (handleStart (.ok "s") (handleReset st))).distractionStreak = 1 := by
  refine ⟨?_, ?_, rfl, rfl, ?_⟩
  · unfold handleStart
    cases res with
    | ok sid => rfl
    | err msg => dsimp only; split <;> rfl
  · unfold handleStart
    cases res with
    | ok sid => rfl
    | err msg => dsimp only; split <;> rfl
  · simp only [handleReset, handleStart, triggerDistractionAlert, hty]
    simp

/-- Witness for C6's amended theorem at a concrete state. -/
theorem streak_reset_behavior_witness :
    initialState.sessionType = SessionType.Work ∧
    (triggerDistractionAlert 5 "tab-switch"
      (handleStart (.ok "s") (handleReset initialState))).distractionStreak = 1 :=
  ⟨rfl, (streak_reset_behavior initialState (.ok "x") 5 "tab-switch" rfl).2.2.2.2⟩

/-! ## Claims about events outside a running Work session (C7) -/

/-- C7: whenever the session is not a running Work session, none of the
event handlers emits or logs a distraction event: the alert trigger and the
keydown handler are no-ops (and the keydown handler does not call
preventDefault), the blocked counter is not incremented on hide, and the
visibility watchdog leaves both event logs unchanged. -/
theorem no_distraction_outside_running_work (st : EngineState) (now : Int)
    (ty : String) (e : KeyEvent) (hidden : Bool)
    (h : ¬(st.isActive = true ∧ st.sessionType = SessionType.Work)) :
    triggerDistractionAlert now ty st = st ∧
    handleKeydown now e st = (st, false) ∧
    handleVisibilityChangeBlocked hidden st = st ∧
    (handleVisibilityReturn now hidden st).sessionDistractions = st.sessionDistractions ∧
    (handleVisibilityReturn now hidden st).distractionLog = st.distractionLog := by
  refine ⟨?_, ?_, ?_, ?_, ?_⟩
  · unfold triggerDistractionAlert
    rw [if_neg h]
  · unfold handleKeydown
    rw [if_neg h]
  · unfold handleVisibilityChangeBlocked
    rw [if_neg (by rintro ⟨_, h2, h3⟩; exact h ⟨h2, h3⟩)]
  · unfold handleVisibilityReturn
    split
    · dsimp only
      split
      · simp [triggerDistractionAlert, h]
      · simp
    · split <;> simp
  · unfold handleVisibilityReturn
    split
    · dsimp only
      split
      · simp [triggerDistractionAlert, h]
      · simp
    · split <;> simp

/-- Witness for C7 at a concrete idle state. -/
theorem no_distraction_outside_running_work_witness :
    ¬(initialState.isActive = true ∧ initialState.sessionType = SessionType.Work) ∧
    triggerDistractionAlert 0 "tab-switch" initialState = initialState :=
  ⟨by decide,
    (no_distraction_outside_running_work initialState 0 "tab-switch"
      ⟨true, false, "t"⟩ true (by decide)).1⟩

/-! ## Claims about alert auto-dismissal (C9) -/

/-- C9: triggering a distraction during a running Work session installs a
single alert (the `distractionAlert` field holds at most one alert by
construction, and the new alert overwrites the previous one) whose pending
auto-dismissal time is determined solely by its severity — 6000 ms after the
trigger for `critical`, 4000 ms for `warning` — replacing whatever dismissal
was pending before; when the dismissal fires, the alert and its timer are
cleared. -/
theorem alert_autodismiss_delay (st : EngineState) (now : Int) (ty : String)
    (h : st.isActive = true ∧ st.sessionType = SessionType.Work) :
    ∃ a : Alert,
      (triggerDistractionAlert now ty st).distractionAlert = some a ∧
      (triggerDistractionAlert now ty st).alertDismissAt =
        some (now + (if a.severity = Severity.critical then 6000 else 4000)) ∧
      (autoDismissAlert (triggerDistractionAlert now ty st)).distractionAlert = none ∧
      (autoDismissAlert (triggerDistractionAlert now ty st)).alertDismissAt = none := by
  unfold triggerDistractionAlert
  rw [if_pos h]
  exact ⟨_, rfl, rfl, rfl, rfl⟩

/-- Witness for C9 at a concrete running Work state. -/
theorem alert_autodismiss_delay_witness :
    (({ initialState with isActive := true } : EngineState).isActive = true ∧
      ({ initialState with isActive := true } : EngineState).sessionType =
        SessionType.Work) ∧
    ∃ a : Alert,
      (triggerDistractionAlert 0 "tab-switch"
        { initialState with isActive := true }).distractionAlert = some a ∧
      (triggerDistractionAlert 0 "tab-switch"
        { initialState with isActive := true }).alertDismissAt =
        some (0 + (if a.severity = Severity.critical then 6000 else 4000)) ∧
      (autoDismissAlert (triggerDistractionAlert 0 "tab-switch"
        { initialState with isActive := true })).distractionAlert = none ∧
      (autoDismissAlert (triggerDistractionAlert 0 "tab-switch"
        { initialState with isActive := true })).alertDismissAt = none :=
  ⟨⟨rfl, rfl⟩, alert_autodismiss_delay _ 0 "tab-switch" ⟨rfl, rfl⟩⟩

/-! ## Claims about the countdown and the summary values (C8) -/

lemma tick_iterate (ro : Bool) : ∀ (k : Nat) (st : EngineState),
    st.isActive = true → k < st.timeLeft →
    (tick ro)^[k] st = { st with timeLeft := st.timeLeft - k }
  | 0, st, _, _ => by simp
  | (k + 1), st, ha, hk => by
    rw [Function.iterate_succ_apply]
    have ht : tick ro st = { st with timeLeft := st.timeLeft - 1 } := by
      unfold tick
      rw [if_pos ⟨ha, by omega⟩, if_neg (by omega)]
    rw [ht, tick_iterate ro k { st with timeLeft := st.timeLeft - 1 } ha (by simp; omega)]
    have harith : st.timeLeft - 1 - k = st.timeLeft - (k + 1) := by omega
    simp [harith]

/-- C8: the summary's focus score is `max(0, 100 − 5 × totalDistractions)`
for every session log, and the zero-distraction scenario holds: a started
25-minute Work session ticked down 1500 times reaches the completed state
(clock at 0, inactive, completion and summary flags set) with an empty
distraction log, whose summary reports `totalDistractions = 0` and a focus
score of 100. -/
theorem focus_score_formula_and_zero_distraction_scenario :
    (∀ (blocked : Nat) (log : List DistractionEvent),
      (summaryOf blocked log).focusScore = max 0 (100 - 5 * (log.length : Int)) ∧
      (summaryOf blocked log).totalDistractions = log.length) ∧
    ((tick true)^[1500] (handleStart (.ok "s1") initialState)).timeLeft = 0 ∧
    ((tick true)^[1500] (handleStart (.ok "s1") initialState)).isActive = false ∧
    ((tick true)^[1500] (handleStart (.ok "s1") initialState)).sessionCompleted = true ∧
    ((tick true)^[1500] (handleStart (.ok "s1") initialState)).showSessionSummary = true ∧
    ((tick true)^[1500] (handleStart (.ok "s1") initialState)).sessionDistractions = [] ∧
    (summaryOf
      ((tick true)^[1500] (handleStart (.ok "s1") initialState)).blockedCount
      ((tick true)^[1500] (handleStart (.ok "s1") initialState)).sessionDistractions
        ).totalDistractions = 0 ∧
    (summaryOf
      ((tick true)^[1500] (handleStart (.ok "s1") initialState)).blockedCount
      ((tick true)^[1500] (handleStart (.ok "s1") initialState)).sessionDistractions
        ).focusScore = 100 := by
  have hiter : (tick true)^[1500] (handleStart (.ok "s1") initialState) =
      tick true ((tick true)^[1499] (handleStart (.ok "s1") initialState)) :=
    Function.iterate_succ_apply' (tick true) 1499 _
  have h1499 : (tick true)^[1499] (handleStart (.ok "s1") initialState) =
      { handleStart (.ok "s1") initialState with timeLeft := 1 } := by
    rw [tick_iterate true 1499 (handleStart (.ok "s1") initialState) rfl (by decide)]
    rfl
  have hfin : (tick true)^[1500] (handleStart (.ok "s1") initialState) =
      tick true { handleStart (.ok "s1") initialState with timeLeft := 1 } := by
    rw [hiter, h1499]
  refine ⟨fun blocked log => ⟨rfl, rfl⟩, ?_, ?_, ?_, ?_, ?_, ?_, ?_⟩ <;>
    rw [hfin] <;> decide

/-! ## Claims about the visibility watchdog (C5) -/

/-- C5: for a hide/return cycle during a running Work session (page hidden
at `t1 > 0`, visible again at `t2`), a `tab-switch` distraction is logged to
both logs and the refocus prompt is raised when the measured away duration
`(t2 - t1)/1000` exceeds 5 seconds; when it does not exceed 5 seconds, the
cycle leaves the state exactly as it was — no event is emitted. -/
theorem visibility_watchdog_tab_switch (st : EngineState) (t1 t2 : Int)
    (hact : st.isActive = true) (hty : st.sessionType = SessionType.Work)
    (hh : st.hiddenTime = 0) (h1 : 0 < t1) :
    (5 < ((t2 - t1 : Int) : ℚ) / 1000 →
      (handleVisibilityReturn t2 false
          (handleVisibilityReturn t1 true st)).sessionDistractions =
        st.sessionDistractions ++ [⟨t2, "tab-switch"⟩] ∧
      (handleVisibilityReturn t2 false
          (handleVisibilityReturn t1 true st)).distractionLog =
        st.distractionLog ++ [⟨t2, "tab-switch"⟩] ∧
      (handleVisibilityReturn t2 false
          (handleVisibilityReturn t1 true st)).showRefocusPrompt = true) ∧
    (¬5 < ((t2 - t1 : Int) : ℚ) / 1000 →
      handleVisibilityReturn t2 false (handleVisibilityReturn t1 true st) = st) := by
  have hHid : handleVisibilityReturn t1 true st = { st with hiddenTime := t1 } := by
    unfold handleVisibilityReturn
    rw [if_neg (by simp), if_pos rfl]
  rw [hHid]
  have hcond : (false = false ∧ 0 < ({ st with hiddenTime := t1 } : EngineState).hiddenTime) :=
    ⟨rfl, h1⟩
  constructor
  · intro haway
    unfold handleVisibilityReturn
    rw [if_pos hcond]
    dsimp only
    rw [if_pos haway]
    unfold triggerDistractionAlert
    rw [if_pos ⟨hact, hty⟩]
    exact ⟨rfl, rfl, rfl⟩
  · intro haway
    unfold handleVisibilityReturn
    rw [if_pos hcond]
    dsimp only
    rw [if_neg haway]
    show ({ st with hiddenTime := 0 } : EngineState) = st
    rw [← hh]

/-- Witness for C5 at a concrete 8-second hide/return cycle. -/
theorem visibility_watchdog_tab_switch_witness :
    (({ initialState with isActive := true } : EngineState).isActive = true ∧
      ({ initialState with isActive := true } : EngineState).hiddenTime = 0 ∧
      (0 : Int) < 1000 ∧ (5 : ℚ) < ((9000 - 1000 : Int) : ℚ) / 1000) ∧
    (handleVisibilityReturn 9000 false
        (handleVisibilityReturn 1000 true
          { initialState with isActive := true })).sessionDistractions =
      ({ initialState with isActive := true } : EngineState).sessionDistractions ++
        [⟨9000, "tab-switch"⟩] :=
  ⟨⟨rfl, rfl, by decide, by norm_num⟩,
    ((visibility_watchdog_tab_switch { initialState with isActive := true }
        1000 9000 rfl rfl rfl (by decide)).1 (by norm_num)).1⟩

/-! ## Claims about the blocked-distraction counter (C10) -/

/-- A sequence of hide/return cycles `(t1, t2)` run through both
`visibilitychange` listeners. -/
def runCycles (st : EngineState) : List (Int × Int) → EngineState
  | [] => st
  | c :: rest => runCycles (onVisibilityChange c.2 false (onVisibilityChange c.1 true st)) rest

lemma cycle_step (st : EngineState) (t1 t2 : Int)
    (hact : st.isActive = true) (hty : st.sessionType = SessionType.Work)
    (h1 : 0 < t1) :
    (onVisibilityChange t2 false (onVisibilityChange t1 true st)).isActive = true ∧
    (onVisibilityChange t2 false (onVisibilityChange t1 true st)).sessionType =
      SessionType.Work ∧
    (onVisibilityChange t2 false (onVisibilityChange t1 true st)).hiddenTime = 0 ∧
    (onVisibilityChange t2 false (onVisibilityChange t1 true st)).blockedCount =
      st.blockedCount + 1 ∧
    (onVisibilityChange t2 false (onVisibilityChange t1 true st)).sessionDistractions.length =
      st.sessionDistractions.length +
        (if 5 < ((t2 - t1 : Int) : ℚ) / 1000 then 1 else 0) := by
  have hBlk : handleVisibilityChangeBlocked true st =
      { st with blockedCount := st.blockedCount + 1 } := by
    unfold handleVisibilityChangeBlocked
    rw [if_pos ⟨rfl, hact, hty⟩]
  have hHid : onVisibilityChange t1 true st =
      { st with blockedCount := st.blockedCount + 1, hiddenTime := t1 } := by
    unfold onVisibilityChange
    rw [hBlk]
    unfold handleVisibilityReturn
    rw [if_neg (by simp), if_pos rfl]
  have hBlk2 : handleVisibilityChangeBlocked false
      ({ st with blockedCount := st.blockedCount + 1, hiddenTime := t1 }) =
      { st with blockedCount := st.blockedCount + 1, hiddenTime := t1 } := by
    unfold handleVisibilityChangeBlocked
    rw [if_neg (by simp)]
  rw [hHid]
  unfold onVisibilityChange
  rw [hBlk2]
  unfold handleVisibilityReturn
  rw [if_pos ⟨rfl, h1⟩]
  dsimp only
  by_cases haway : 5 < ((t2 - t1 : Int) : ℚ) / 1000
  · rw [if_pos haway]
    unfold triggerDistractionAlert
    rw [if_pos ⟨hact, hty⟩]
    have haway' : 5 < ((t2 : ℚ) - (t1 : ℚ)) / 1000 := by push_cast at haway; exact haway
    simp [hact, hty, haway']
  · rw [if_neg haway]
    have haway' : ¬5 < ((t2 : ℚ) - (t1 : ℚ)) / 1000 := by push_cast at haway; exact haway
    simp [hact, hty, haway']

/-- C10: processing any sequence of hide/return cycles during a running
Work session increments `blockedCount` by exactly one per cycle (regardless
of how long the page stayed hidden), while the distraction log grows only by
the number of cycles whose away duration exceeded 5 seconds — so the number
of logged events added never exceeds the number of blocked attempts added,
and brief hides are counted as blocked without producing any event. -/
lemma runCycles_counts (cycles : List (Int × Int)) : ∀ (st : EngineState),
    st.isActive = true → st.sessionType = SessionType.Work →
    (∀ c ∈ cycles, 0 < c.1) →
    (runCycles st cycles).blockedCount = st.blockedCount + cycles.length ∧
    (runCycles st cycles).sessionDistractions.length =
      st.sessionDistractions.length +
        cycles.countP (fun c => decide (5 < ((c.2 - c.1 : Int) : ℚ) / 1000)) := by
  induction cycles with
  | nil =>
    intro st _ _ _
    simp [runCycles]
  | cons c rest ih =>
    intro st hact hty hpos
    obtain ⟨hA, hT, hH, hB, hS⟩ :=
      cycle_step st c.1 c.2 hact hty (hpos c (List.mem_cons_self c rest))
    have hrun : runCycles st (c :: rest) =
        runCycles (onVisibilityChange c.2 false (onVisibilityChange c.1 true st)) rest := rfl
    obtain ⟨ih1, ih2⟩ := ih (onVisibilityChange c.2 false (onVisibilityChange c.1 true st))
      hA hT (fun x hx => hpos x (List.mem_cons_of_mem c hx))
    constructor
    · rw [hrun, ih1, hB, List.length_cons]
      omega
    · rw [hrun, ih2, hS, List.countP_cons]
      by_cases haway : 5 < ((c.2 - c.1 : Int) : ℚ) / 1000
      · rw [if_pos haway]
        have hd : decide (5 < ((c.2 - c.1 : Int) : ℚ) / 1000) = true := decide_eq_true haway
        simp only [hd, if_true]
        omega
      · rw [if_neg haway]
        have hd : decide (5 < ((c.2 - c.1 : Int) : ℚ) / 1000) = false :=
          decide_eq_false haway
        simp [hd]
        push_cast at haway
        exact not_lt.mp haway

theorem blocked_count_counts_every_hide (st : EngineState) (cycles : List (Int × Int))
    (hact : st.isActive = true) (hty : st.sessionType = SessionType.Work)
    (hpos : ∀ c ∈ cycles, 0 < c.1) :
    (runCycles st cycles).blockedCount = st.blockedCount + cycles.length ∧
    (runCycles st cycles).sessionDistractions.length =
      st.sessionDistractions.length +
        cycles.countP (fun c => decide (5 < ((c.2 - c.1 : Int) : ℚ) / 1000)) ∧
    (runCycles st cycles).sessionDistractions.length - st.sessionDistractions.length ≤
      (runCycles st cycles).blockedCount - st.blockedCount := by
  obtain ⟨h1, h2⟩ := runCycles_counts cycles st hact hty hpos
  refine ⟨h1, h2, ?_⟩
  rw [h1, h2]
  have hcle := List.countP_le_length
    (p := fun c => decide (5 < ((c.2 - c.1 : Int) : ℚ) / 1000)) (l := cycles)
  omega

/-- Witness for C10 at a single brief (2-second) hide/return cycle: the
blocked counter gains 1 while no distraction event is logged. -/
theorem blocked_count_counts_every_hide_witness :
    (({ initialState with isActive := true } : EngineState).isActive = true ∧
      (∀ c ∈ [((1000 : Int), (3000 : Int))], 0 < c.1)) ∧
    (runCycles { initialState with isActive := true } [(1000, 3000)]).blockedCount =
      ({ initialState with isActive := true } : EngineState).blockedCount + 1 ∧
    (runCycles { initialState with isActive := true }
        [(1000, 3000)]).sessionDistractions.length =
      ({ initialState with isActive := true } : EngineState).sessionDistractions.length +
        [((1000 : Int), (3000 : Int))].countP
          (fun c => decide (5 < ((c.2 - c.1 : Int) : ℚ) / 1000)) :=
  ⟨⟨rfl, by decide⟩,
    (blocked_count_counts_every_hide { initialState with isActive := true }
        [(1000, 3000)] rfl rfl (by decide)).1,
    (blocked_count_counts_every_hide { initialState with isActive := true }
        [(1000, 3000)] rfl rfl (by decide)).2.1⟩

/-! ## Claims about the idle watchdog (C4) -/

lemma idleSim_mem (horizon : Int) : ∀ (acts : List Int) (armedAt : Option Int),
    List.Pairwise (· ≤ ·) acts →
    ∀ f ∈ idleSim armedAt acts horizon,
      ∃ a, (armedAt = some a ∨ a ∈ acts) ∧ f = a + idleDelayMs ∧
        ∀ b ∈ acts, ¬(a < b ∧ b < f) := by
  intro acts
  induction acts with
  | nil =>
    intro armedAt _ f hf
    cases armedAt with
    | none => cases hf
    | some a =>
      simp only [idleSim] at hf
      split at hf
      · rcases List.mem_singleton.mp hf with rfl
        exact ⟨a, Or.inl rfl, rfl, by simp⟩
      · cases hf
  | cons b rest ih =>
    intro armedAt hp f hf
    obtain ⟨hb, hrest⟩ := List.pairwise_cons.mp hp
    have tail_case : f ∈ idleSim (some b) rest horizon →
        ∃ a, (a ∈ b :: rest) ∧ f = a + idleDelayMs ∧
          ∀ x ∈ b :: rest, ¬(a < x ∧ x < f) := by
      intro hf'
      obtain ⟨a, horigin, hfa, hwin⟩ := ih (some b) hrest f hf'
      have hmem : a ∈ b :: rest := by
        rcases horigin with h | h
        · rw [Option.some.injEq] at h
          rw [← h]
          exact List.mem_cons_self b rest
        · exact List.mem_cons_of_mem b h
      refine ⟨a, hmem, hfa, ?_⟩
      intro x hx
      rcases List.mem_cons.mp hx with rfl | hx'
      · rcases horigin with h | h
        · rw [Option.some.injEq] at h
          rw [← h]
          rintro ⟨hlt, _⟩
          exact lt_irrefl _ hlt
        · rintro ⟨hlt, _⟩
          exact absurd hlt (not_lt.mpr (hb a h))
      · exact hwin x hx'
    cases armedAt with
    | none =>
      obtain ⟨a, hmem, hfa, hwin⟩ := tail_case hf
      exact ⟨a, Or.inr hmem, hfa, hwin⟩
    | some a0 =>
      simp only [idleSim] at hf
      split at hf
      · rcases List.mem_cons.mp hf with rfl | hf'
        · refine ⟨a0, Or.inl rfl, rfl, ?_⟩
          intro x hx
          rename_i hfire
          rcases List.mem_cons.mp hx with rfl | hx'
          · rintro ⟨_, hlt⟩
            exact absurd hfire (not_lt.mpr (le_of_lt hlt))
          · rintro ⟨_, hlt⟩
            exact absurd (lt_of_le_of_lt (hb x hx') hlt) (not_lt.mpr (le_of_lt hfire))
        · obtain ⟨a, hmem, hfa, hwin⟩ := tail_case hf'
          exact ⟨a, Or.inr hmem, hfa, hwin⟩
      · obtain ⟨a, hmem, hfa, hwin⟩ := tail_case hf
        exact ⟨a, Or.inr hmem, hfa, hwin⟩

/-- C4 (amended): during an active Work session, every `idle-detected` fire
happens exactly 180000 ms after an arming point (the mount or an activity)
with zero intervening pointer-move or key-down activity — the watchdog never
fires early and any activity resets its timer; but after firing the timer is
**not** re-armed: with no further activity the watchdog fires at most once
(a second fire requires a new activity to re-arm it). -/
theorem idle_watchdog_fires (mount horizon : Int) (acts : List Int)
    (hs : List.Pairwise (· ≤ ·) acts) :
    (∀ f ∈ idleFires mount acts horizon,
      ∃ a, (a = mount ∨ a ∈ acts) ∧ f = a + idleDelayMs ∧
        ∀ b ∈ acts, ¬(a < b ∧ b < f)) ∧
    idleFires mount [] horizon =
      (if mount + idleDelayMs ≤ horizon then [mount + idleDelayMs] else []) := by
  constructor
  · intro f hf
    obtain ⟨a, horigin, hfa, hwin⟩ := idleSim_mem horizon acts (some mount) hs f hf
    refine ⟨a, ?_, hfa, hwin⟩
    rcases horigin with h | h
    · rw [Option.some.injEq] at h
      exact Or.inl h.symm
    · exact Or.inr h
  · rfl

/-- Witness for C4's amended theorem: timer armed at mount 0, one activity
at 200000; fires at 180000 and (after the re-arming activity) at 380000. -/
theorem idle_watchdog_fires_witness :
    List.Pairwise (· ≤ ·) [(200000 : Int)] ∧
    idleFires 0 [200000] 400000 = [180000, 380000] ∧
    (∀ f ∈ idleFires 0 [200000] 400000,
      ∃ a, (a = 0 ∨ a ∈ [(200000 : Int)]) ∧ f = a + idleDelayMs ∧
        ∀ b ∈ [(200000 : Int)], ¬(a < b ∧ b < f)) :=
  ⟨List.pairwise_singleton _ _, by decide,
    (idle_watchdog_fires 0 400000 [200000] (List.pairwise_singleton _ _)).1⟩

/-- C4 counterexample: timer armed at mount time 0 with no activity at all
up to time 400000 fires exactly once, at 180000; the claim's re-arming would
require a second `idle-detected` at 360000, which does not occur. -/
theorem idle_watchdog_no_rearm_counterexample :
    idleFires 0 [] 400000 = [180000] ∧
    ((360000 : Int) ∈ idleFires 0 [] 400000 → False) := by
  exact ⟨by decide, by decide⟩

end FocusFlow
